import Mathlib

/-!
Shallow embedding of the axios-request-ts wrapper.

Two response pipelines exist in the repository:
* the class-based `HttpRequest` wrapper in `src/main.ts` (response
  interceptor with a content-type check, an envelope branch, a
  HTTP-status switch, and the `withAxiosResponse` escape hatch);
* the functional wrapper in `src/api/request.ts` (response interceptor
  keyed on `config.responseType === "blob"`, empty lookup-table
  placeholders, and a `localStorage.access_token` deletion on 401).

JavaScript dynamics that matter to the interceptors are modelled
explicitly: truthiness, destructuring (which throws on `null` and
`undefined`), strict equality `success === false`, template-string
interpolation of possibly-undefined fields, and `||` fallback chains.
-/

/-- JavaScript primitive-ish values: payloads and raw (non-envelope)
response bodies. `blob n` stands for an opaque binary body. -/
inductive JVal where
  | undefined
  | jsNull
  | jbool (b : Bool)
  | jnum (n : Int)
  | jstr (s : String)
  | blob (n : Nat)
deriving DecidableEq, Repr

/-- The backend response envelope `IResponseData<T>` / `ResponseData<T>`:
`{ data, code, success, message? }`. `code` and `success` are `Option`
so that objects missing those fields (destructured to `undefined`) are
representable; `message` is optional in the source interface itself. -/
structure Envelope where
  data : JVal
  code : Option Int
  success : Option Bool
  message : Option String
deriving DecidableEq, Repr

/-- A response body as seen by the interceptors: either an envelope
object or some other JavaScript value (an HTML string, `null`, a blob,
...). -/
inductive Body where
  | env (e : Envelope)
  | val (v : JVal)
deriving DecidableEq, Repr

/-- JavaScript truthiness of a primitive value. -/
def jsTruthy : JVal → Bool
  | .undefined => false
  | .jsNull => false
  | .jbool b => b
  | .jnum n => n != 0
  | .jstr s => s != ""
  | .blob _ => true

/-- Truthiness of a body: objects are always truthy. -/
def Body.truthy : Body → Bool
  | .env _ => true
  | .val v => jsTruthy v

/-- `const { success, code, message } = body`. Destructuring an object
yields its fields, destructuring a non-null primitive yields `undefined`
for every field, and destructuring `null`/`undefined` throws a
`TypeError` (modelled as `none`). -/
def Body.destructure : Body → Option (Option Bool × Option Int × Option String)
  | .env e => some (e.success, e.code, e.message)
  | .val .undefined => none
  | .val .jsNull => none
  | .val _ => some (none, none, none)

/-- `body.data`: property access on an envelope object yields its `data`
field; on any other (non-null) value it yields `undefined`. Only reached
after a successful destructure, so the throwing cases do not arise. -/
def Body.dataField : Body → JVal
  | .env e => e.data
  | .val _ => .undefined

/-- The `success` field of a body as JavaScript sees it: `undefined`
(`none`) for any non-envelope value. -/
def envSuccess : Body → Option Bool
  | .env e => e.success
  | .val _ => none

/-- The slice of `AxiosResponse` the interceptors read:
`headers['content-type']`, `data`, `status`, `statusText`. -/
structure AxiosResp where
  contentType : Option String
  data : Body
  status : Nat
  statusText : String
deriving DecidableEq, Repr

/-- The slice of `AxiosError` the rejected handlers read. `message` is
the JavaScript `Error.message` (a string, possibly empty); `code` is the
axios error code (possibly `undefined`). -/
structure AxiosErr where
  isAxiosError : Bool
  response : Option AxiosResp
  message : String
  code : Option String
deriving DecidableEq, Repr

/-- A user-visible notification emitted by a handler.
`error`/`info` are `msg.error`/`msg.info` of the class-based wrapper;
`success` is the functional wrapper's `message.success` (an `alert`). -/
inductive Notif where
  | error (s : String)
  | info (s : String)
  | success (s : String)
deriving DecidableEq, Repr

/-- What a handler resolves the call with: a plain value
(`response.data.data`, or `undefined`), the raw body
(`response.data`, non-JSON branch), or the whole `AxiosResponse`
(`withAxiosResponse`). -/
inductive Outcome where
  | val (v : JVal)
  | rawBody (b : Body)
  | fullResp (r : AxiosResp)
deriving DecidableEq, Repr

/-- `pat` starts the character list `s`. -/
def startsWithChars : List Char → List Char → Bool
  | [], _ => true
  | _ :: _, [] => false
  | p :: ps, c :: cs => p == c && startsWithChars ps cs

/-- `pat` occurs somewhere in the character list `s`
(`String.prototype.includes`). -/
def containsChars (pat : List Char) : List Char → Bool
  | [] => startsWithChars pat []
  | c :: cs => startsWithChars pat (c :: cs) || containsChars pat cs

/-- `response.headers['content-type']?.toString().includes('application/json')`:
a missing header is optional-chained to `undefined`, which is falsy. -/
def includesJson : Option String → Bool
  | none => false
  | some s => containsChars "application/json".data s.data

/-- Template-string interpolation of a possibly-undefined string. -/
def jsShowStr : Option String → String
  | none => "undefined"
  | some s => s

/-- Template-string interpolation of a possibly-undefined number. -/
def jsShowInt : Option Int → String
  | none => "undefined"
  | some n => toString n

/-- Truthiness of a possibly-undefined string. -/
def optStrTruthy : Option String → Bool
  | none => false
  | some s => s != ""

/-! ## Class-based wrapper (`src/main.ts`, `HttpRequest`) -/

/-- The fixed "BUG" message the class-based error handler emits when an
error response body does not claim `success === false`. -/
def bugMessage : String := "你找到了一个 BUG，请尽快联系管理员!(BUG)"

/-- The envelope branch (`第二层`) of the class-based error handler:
the body is truthy; destructure it and emit either
`` `${svrMsg}(${svrCode})` `` (strict `success === false`) or the fixed
BUG message. Truthiness rules out the throwing destructure cases. -/
def envelopeErrMessage : Body → String
  | .env en =>
    if en.success = some false then s!"{jsShowStr en.message}({jsShowInt en.code})"
    else bugMessage
  | .val _ => bugMessage

/-- The HTTP-status switch (`第三层`) of the class-based error handler. -/
def statusMessage (status : Nat) (statusText : String) : String :=
  match status with
  | 400 => "请求错误(400)"
  | 401 => "未授权，请重新登录(401)"
  | 403 => "拒绝访问(403)"
  | 404 => "请求的资源不存在(404)"
  | 405 => "请求方法不允许(405)"
  | 408 => "请求超时(408)"
  | 500 => "服务器内部错误(500)"
  | 501 => "服务未实现(501)"
  | 502 => "网关错误(502)"
  | 503 => "服务不可用(503)"
  | 504 => "网关超时(504)"
  | 505 => "HTTP 版本不受支持(505)"
  | _ => s!"{statusText}({status})"

/-- `` `${error}` ``: `Error.prototype.toString()` of an `AxiosError`
(its `name` is `"AxiosError"`; the message is appended when nonempty). -/
def errToString (e : AxiosErr) : String :=
  if e.message = "" then "AxiosError" else "AxiosError: " ++ e.message

/-- The message resolution of the class-based rejected handler, layers
2–5: truthy envelope body, then HTTP status switch, then
`` `${error.message}(${error.code})` `` when `error.message || error.code`
is truthy, then the `` `${error}(???)` `` fallback. -/
def httpErrorMessage (e : AxiosErr) : String :=
  match e.response with
  | some resp =>
    if resp.data.truthy then envelopeErrMessage resp.data
    else statusMessage resp.status resp.statusText
  | none =>
    if e.message != "" || optStrTruthy e.code then
      s!"{e.message}({jsShowStr e.code})"
    else
      s!"{errToString e}(???)"

/-- The class-based rejected handler: emit the resolved message with
`msg.error`, then return (axios then resolves the call with
`undefined`). -/
def httpErrorHandler (e : AxiosErr) : Outcome × List Notif :=
  (.val .undefined, [.error (httpErrorMessage e)])

/-- The notifications of the class-based fulfilled handler, from the
destructured `success` / `code` / `message`: `!success` (any non-`true`
value is falsy) emits `` `${svrMsg}(${svrCode})` `` with `msg.error`,
else a truthy `svrMsg` emits it with `msg.info`. -/
def mainNotifs (success : Option Bool) (svrCode : Option Int)
    (svrMsg : Option String) : List Notif :=
  if success ≠ some true then
    [Notif.error s!"{jsShowStr svrMsg}({jsShowInt svrCode})"]
  else if optStrTruthy svrMsg then [Notif.info (jsShowStr svrMsg)]
  else []

/-- The class-based fulfilled handler. Non-JSON content types bypass the
envelope entirely; otherwise the envelope is destructured (`none` models
the `TypeError` thrown on a `null`/`undefined` JSON body), notifications
are emitted from `success`/`message`, and the call resolves with
`response.data.data` — or the whole response when
`config.withAxiosResponse` is set. -/
def httpSuccessHandler (resp : AxiosResp) (withAxiosResponse : Bool) :
    Option (Outcome × List Notif) :=
  if !includesJson resp.contentType then
    if withAxiosResponse then some (.fullResp resp, [])
    else some (.rawBody resp.data, [])
  else
    match resp.data.destructure with
    | none => none
    | some (success, svrCode, svrMsg) =>
      let notifs := mainNotifs success svrCode svrMsg
      if withAxiosResponse then some (.fullResp resp, notifs)
      else some (.val resp.data.dataField, notifs)

/-- One settled transport exchange: either axios delivered a response
(the fulfilled handler runs) or it produced an error (the rejected
handler runs). -/
inductive TransportEvent where
  | ok (resp : AxiosResp)
  | fail (e : AxiosErr)
deriving DecidableEq, Repr

/-- A whole call through the class-based wrapper, as observed by the
caller: the interceptor outcome and its notifications (`none` models a
rejection reaching the caller). -/
def httpRequestCall (ev : TransportEvent) (withAxiosResponse : Bool) :
    Option (Outcome × List Notif) :=
  match ev with
  | .ok resp => httpSuccessHandler resp withAxiosResponse
  | .fail e => some (httpErrorHandler e)

/-! ## Functional wrapper (`src/api/request.ts`) -/

/-- `serverCodeMessageMap`: declared as an empty record (`Todo`), so
every lookup — including with an `undefined` key — yields `undefined`. -/
def serverCodeMessageMap : Option Int → Option String := fun _ => none

/-- `httpCodeMessgeMap` (sic): also an empty record (`Todo`). -/
def httpCodeMessgeMap : Nat → Option String := fun _ => none

/-- A JavaScript `a || b` fallback on a possibly-undefined string. -/
def orFallback (a : Option String) (b : String) : String :=
  if optStrTruthy a then jsShowStr a else b

/-- The `tip` closure of the functional rejected handler:
`serverCodeMessageMap[code] || serverMessage || "Unknown Server Error."`,
with `code`/`message` destructured from the (truthy) body. -/
def tipMessage : Body → String
  | .env en => orFallback (serverCodeMessageMap en.code)
      (orFallback en.message "Unknown Server Error.")
  | .val _ => orFallback (serverCodeMessageMap none)
      (orFallback none "Unknown Server Error.")

/-- `code >= 200 && code < 300` with a possibly-undefined `code`
(comparisons against `undefined` are false). -/
def inSuccessRange : Option Int → Bool
  | none => false
  | some c => 200 ≤ c && c < 300

/-- The functional fulfilled handler: bypass when the request config
said `responseType: "blob"` (the response content type is never
consulted); otherwise destructure the body, notify from `code`'s range
(`message.success(msg)` when in range and `msg` truthy, else
`message.error(serverCodeMessageMap[code])`, an `undefined` text), and
resolve with `response.data.data`. -/
def requestSuccessHandler (resp : AxiosResp) (responseType : Option String) :
    Option (Outcome × List Notif) :=
  if responseType = some "blob" then some (.rawBody resp.data, [])
  else
    match resp.data.destructure with
    | none => none
    | some (_, code, msg) =>
      let notifs :=
        if inSuccessRange code then
          if optStrTruthy msg then [Notif.success (jsShowStr msg)] else []
        else [Notif.error (jsShowStr (serverCodeMessageMap code))]
      some (.val resp.data.dataField, notifs)

/-- The functional rejected handler; `store` is the persisted
`localStorage.access_token`. Non-axios errors and errors without a
response resolve silently; a falsy body resolves after a
`httpCodeMessgeMap[status] || `${status} ${statusText}`` notification;
otherwise `tip()` runs, and on 401 `localStorage.access_token` is
deleted first. Every branch returns `Promise.resolve()`, i.e. resolves
the call with `undefined`. -/
def requestErrorHandler (e : AxiosErr) (store : Option String) :
    Outcome × List Notif × Option String :=
  if !e.isAxiosError || e.response.isNone then (.val .undefined, [], store)
  else
    match e.response with
    | none => (.val .undefined, [], store)
    | some resp =>
      if !resp.data.truthy then
        (.val .undefined,
         [.error (orFallback (httpCodeMessgeMap resp.status)
            s!"{resp.status} {resp.statusText}")],
         store)
      else if resp.status = 401 then
        (.val .undefined, [.error (tipMessage resp.data)], none)
      else
        (.val .undefined, [.error (tipMessage resp.data)], store)

/-! ## Concrete exchanges used to instantiate the theorems -/

/-- A timeout error with no HTTP response. -/
def errTimeout : AxiosErr :=
  { isAxiosError := true, response := none,
    message := "timeout exceeded", code := some "ECONNABORTED" }

/-- A network error with no HTTP response. -/
def errNetwork : AxiosErr :=
  { isAxiosError := true, response := none,
    message := "Network Error", code := some "ERR_NETWORK" }

/-- A `success: false` login envelope. -/
def envDenied : Envelope :=
  { data := JVal.jstr "payload", code := some 9,
    success := some false, message := some "denied" }

/-- A 200 JSON response carrying `envDenied`. -/
def respDenied : AxiosResp :=
  { contentType := some "application/json", data := Body.env envDenied,
    status := 200, statusText := "OK" }

/-- A 401 whose body is a `success: false` envelope. -/
def respExpired : AxiosResp :=
  { contentType := some "application/json",
    data := Body.env { data := JVal.jsNull, code := some 40100,
                       success := some false, message := some "expired" },
    status := 401, statusText := "Unauthorized" }

/-- The 401 transport error carrying `respExpired`. -/
def errExpired : AxiosErr :=
  { isAxiosError := true, response := some respExpired,
    message := "Request failed with status code 401", code := none }

/-- A 408 with an empty (falsy) body. -/
def respTimeout408 : AxiosResp :=
  { contentType := none, data := Body.val JVal.undefined,
    status := 408, statusText := "Request Timeout" }

/-- The 408 transport error carrying `respTimeout408`. -/
def errTimeout408 : AxiosErr :=
  { isAxiosError := true, response := some respTimeout408,
    message := "Request failed with status code 408", code := none }

/-- A 418 with an empty (falsy) body, for the functional handler. -/
def errTeapot : AxiosErr :=
  { isAxiosError := true,
    response := some { contentType := none, data := Body.val JVal.undefined,
                       status := 418, statusText := "Teapot" },
    message := "Request failed with status code 418", code := none }

/-- A `success: true` envelope with a login message. -/
def envLogin : Envelope :=
  { data := JVal.jnum 3, code := some 0,
    success := some true, message := some "登录成功" }

/-- A 200 JSON response carrying `envLogin`. -/
def respLogin : AxiosResp :=
  { contentType := some "application/json;charset=UTF-8",
    data := Body.env envLogin, status := 200, statusText := "OK" }

/-- A binary (octet-stream) response. -/
def respBlob : AxiosResp :=
  { contentType := some "application/octet-stream",
    data := Body.val (JVal.blob 5), status := 200, statusText := "OK" }

/-- A 500 whose body contradictorily claims `success: true`. -/
def respContradict : AxiosResp :=
  { contentType := some "application/json",
    data := Body.env { data := JVal.jsNull, code := some 200,
                       success := some true, message := some "ok" },
    status := 500, statusText := "Internal Server Error" }

/-- The 500 transport error carrying `respContradict`. -/
def errContradict : AxiosErr :=
  { isAxiosError := true, response := some respContradict,
    message := "Request failed with status code 500",
    code := some "ERR_BAD_RESPONSE" }

/-- A `success: true` envelope without a message. -/
def envQuiet : Envelope :=
  { data := JVal.jstr "user-1", code := some 0,
    success := some true, message := none }

/-- A 200 JSON response carrying `envQuiet`. -/
def respQuiet : AxiosResp :=
  { contentType := some "application/json", data := Body.env envQuiet,
    status := 200, statusText := "OK" }

/-- A 502 whose body is an HTML error page (truthy, not an envelope). -/
def respHtml502 : AxiosResp :=
  { contentType := some "text/html",
    data := Body.val (JVal.jstr "<html>502 Bad Gateway</html>"),
    status := 502, statusText := "Bad Gateway" }

/-- The 502 transport error carrying `respHtml502`. -/
def errHtml502 : AxiosErr :=
  { isAxiosError := true, response := some respHtml502,
    message := "Request failed with status code 502", code := none }

/-- A `success: false` envelope whose `data` is the number 7. -/
def envOops : Envelope :=
  { data := JVal.jnum 7, code := some 42,
    success := some false, message := some "oops" }

/-- A 200 JSON response carrying `envOops`. -/
def respOops : AxiosResp :=
  { contentType := some "application/json", data := Body.env envOops,
    status := 200, statusText := "OK" }

/-- A 500 whose body is a `success: false` envelope, wrapped in an
error object that is not an axios error (`isAxiosError: false`). -/
def errNotAxios : AxiosErr :=
  { isAxiosError := false,
    response :=
      some { contentType := some "application/json",
             data := Body.env { data := JVal.undefined, code := some 500,
                                success := some false,
                                message := some "boom" },
             status := 500, statusText := "Internal Server Error" },
    message := "Request failed with status code 500", code := none }

/-- A 401 transport error with an empty (falsy) body. -/
def err401NoBody : AxiosErr :=
  { isAxiosError := true,
    response := some { contentType := none, data := Body.val JVal.undefined,
                       status := 401, statusText := "Unauthorized" },
    message := "Request failed with status code 401", code := none }

/-- A 404 whose body is a truthy HTML page, not an envelope. -/
def errHtml404 : AxiosErr :=
  { isAxiosError := true,
    response :=
      some { contentType := some "text/html",
             data := Body.val (JVal.jstr "<html>Not Found</html>"),
             status := 404, statusText := "Not Found" },
    message := "Request failed with status code 404", code := none }

/-- An axios timeout error with no HTTP response. -/
def errTimeout30s : AxiosErr :=
  { isAxiosError := true, response := none,
    message := "timeout of 30000ms exceeded", code := some "ECONNABORTED" }

/-- A JSON response whose envelope claims `success: true` but carries a
backend `code` of 500 and no message. -/
def respTrueCode500 : AxiosResp :=
  { contentType := some "application/json",
    data := Body.env { data := JVal.jnum 1, code := some 500,
                       success := some true, message := none },
    status := 200, statusText := "OK" }

/-- A CSV (non-JSON) response whose body happens to be an envelope with
`success: false`. -/
def respCsv : AxiosResp :=
  { contentType := some "text/csv",
    data := Body.env { data := JVal.jnum 2, code := some 400,
                       success := some false, message := none },
    status := 200, statusText := "OK" }

/-- A 200 JSON response whose body is JSON `null`. -/
def respNullBody : AxiosResp :=
  { contentType := some "application/json", data := Body.val JVal.jsNull,
    status := 200, statusText := "OK" }

/-! ## Claims -/

/-- C1, counterexample: a `success: false` JSON envelope with a non-null
`data` field (`respOops`) resolves to that `data` value (the number 7),
not to `undefined`, so "the call resolves to `undefined`" fails as
stated. -/
theorem c1_counterexample :
    httpSuccessHandler respOops false
      = some (Outcome.val (JVal.jnum 7), [Notif.error "oops(42)"]) ∧
    Outcome.val (JVal.jnum 7) ≠ Outcome.val JVal.undefined := by
  decide

/-- C1, amended: for every JSON response whose envelope has
`success: false`, the call (without `withAxiosResponse`) resolves to the
envelope's `data` field — `undefined` only when the backend sent no
data — and emits exactly one error notification
`` `${message}(${code})` ``. -/
theorem c1_success_false_resolves_data (resp : AxiosResp) (en : Envelope)
    (hct : includesJson resp.contentType = true)
    (hb : resp.data = Body.env en)
    (hs : en.success = some false) :
    httpSuccessHandler resp false
      = some (Outcome.val en.data,
              [Notif.error s!"{jsShowStr en.message}({jsShowInt en.code})"]) := by
  simp [httpSuccessHandler, hct, hb, Body.destructure, Body.dataField,
        mainNotifs, hs]

/-- C1, witness: the amended theorem at the concrete `respDenied`
exchange. -/
theorem c1_witness :
    httpSuccessHandler respDenied false
      = some (Outcome.val (JVal.jstr "payload"), [Notif.error "denied(9)"]) := by
  have h := c1_success_false_resolves_data respDenied envDenied
    (by decide) rfl rfl
  exact h.trans (by decide)

/-- C2, counterexample: a transport failure whose error object is not an
axios error (`errNotAxios`, carrying a genuine `success: false`
envelope) is swallowed by the functional rejected handler with no
notification at all, so "every failure produces a user-visible
notification" fails as stated. -/
theorem c2_counterexample :
    requestErrorHandler errNotAxios (some "tok")
      = (Outcome.val JVal.undefined, [], some "tok") := by
  decide

/-- C2, amended: transport failures never reject — the class-based
rejected handler always resolves `undefined` with exactly one error
notification, and the functional rejected handler always resolves
`undefined` (silently in its `!isAxiosError || !response` guard branch).
The fulfilled handlers, however, are not total: each rejects to the
caller in exactly one case, a body of `null`/`undefined` reaching the
envelope destructuring (under a JSON content type in the class-based
handler; under a non-`"blob"` `responseType` in the functional one),
where the `TypeError` propagates; every other response resolves. -/
theorem c2_never_rejects_amended :
    (∀ (e : AxiosErr) (w : Bool),
      httpRequestCall (TransportEvent.fail e) w
        = some (Outcome.val JVal.undefined, [Notif.error (httpErrorMessage e)])) ∧
    (∀ (e : AxiosErr) (store : Option String),
      (requestErrorHandler e store).1 = Outcome.val JVal.undefined) ∧
    (∀ (resp : AxiosResp) (w : Bool),
      httpSuccessHandler resp w = none
        ↔ includesJson resp.contentType = true ∧
          (resp.data = Body.val JVal.undefined ∨
           resp.data = Body.val JVal.jsNull)) ∧
    (∀ (resp : AxiosResp) (responseType : Option String),
      requestSuccessHandler resp responseType = none
        ↔ responseType ≠ some "blob" ∧
          (resp.data = Body.val JVal.undefined ∨
           resp.data = Body.val JVal.jsNull)) := by
  refine ⟨fun e w => rfl, ?_, ?_, ?_⟩
  · intro e store
    unfold requestErrorHandler
    repeat' split
    all_goals rfl
  · intro resp w
    unfold httpSuccessHandler
    cases hct : includesJson resp.contentType
    · cases w <;> simp
    · cases hd : resp.data with
      | env en => cases w <;> simp [Body.destructure]
      | val v => cases v <;> cases w <;> simp [Body.destructure]
  · intro resp responseType
    unfold requestSuccessHandler
    by_cases hrt : responseType = some "blob"
    · simp [hrt]
    · cases hd : resp.data with
      | env en => simp [Body.destructure, hrt]
      | val v => cases v <;> simp [Body.destructure, hrt]

/-- C2, witness: both rejected handlers at a concrete transport error,
and both fulfilled handlers rejecting at the concrete `null`-body JSON
response. -/
theorem c2_witness :
    httpRequestCall (TransportEvent.fail errTimeout) false
      = some (Outcome.val JVal.undefined,
              [Notif.error "timeout exceeded(ECONNABORTED)"]) ∧
    (requestErrorHandler errTimeout (some "tok")).1 = Outcome.val JVal.undefined ∧
    httpSuccessHandler respNullBody false = none ∧
    requestSuccessHandler respNullBody none = none := by
  refine ⟨?_, ?_, ?_, ?_⟩
  · have h := c2_never_rejects_amended.1 errTimeout false
    exact h.trans (by decide)
  · exact c2_never_rejects_amended.2.1 errTimeout (some "tok")
  · exact (c2_never_rejects_amended.2.2.1 respNullBody false).mpr
      ⟨by decide, Or.inr rfl⟩
  · exact (c2_never_rejects_amended.2.2.2 respNullBody none).mpr
      ⟨by decide, Or.inr rfl⟩

/-- C3, counterexample: a 401 transport error with an empty (falsy)
body (`err401NoBody`) leaves the stored `access_token` untouched — the
functional handler's `!data` branch returns before the 401 switch — so
"for every 401 transport error the stored access token is cleared"
fails as stated (and the class-based handler never clears at all). -/
theorem c3_counterexample :
    requestErrorHandler err401NoBody (some "tok")
      = (Outcome.val JVal.undefined, [Notif.error "401 Unauthorized"], some "tok") ∧
    some "tok" ≠ (none : Option String) := by
  decide

/-- C3, amended: only the functional handler clears the token, and only
for an axios error whose 401 response carries a truthy body: then
`localStorage.access_token` is deleted, the `tip()` error notification
is emitted, and the call resolves `undefined`. -/
theorem c3_token_cleared_amended (e : AxiosErr) (resp : AxiosResp)
    (store : Option String)
    (hax : e.isAxiosError = true) (hr : e.response = some resp)
    (hs : resp.status = 401) (hb : resp.data.truthy = true) :
    requestErrorHandler e store
      = (Outcome.val JVal.undefined, [Notif.error (tipMessage resp.data)], none) := by
  simp [requestErrorHandler, hax, hr, hb, hs]

/-- C3, witness: the amended theorem at the concrete `errExpired`
exchange. -/
theorem c3_witness :
    requestErrorHandler errExpired (some "tok")
      = (Outcome.val JVal.undefined, [Notif.error "expired"], none) := by
  have h := c3_token_cleared_amended errExpired respExpired (some "tok")
    rfl rfl rfl (by decide)
  exact h.trans (by decide)

/-- C4, counterexample: a 404 whose body is a (truthy) HTML page
(`errHtml404`) — an HTTP response with no parseable envelope — is
notified with the fixed BUG message, not with the status table's 404
string, so "for every transport error with a response but no parseable
envelope body the notification is the table string" fails as stated:
the table is reached only when the body is falsy. -/
theorem c4_counterexample :
    httpErrorHandler errHtml404
      = (Outcome.val JVal.undefined, [Notif.error bugMessage]) ∧
    bugMessage ≠ "请求的资源不存在(404)" := by
  decide

/-- C4, amended: in the class-based handler the status table is reached
exactly when the error body is absent or falsy (not merely
unparseable); there the notification is the fixed string for the twelve
mapped statuses and `` `${statusText}(${status})` `` for every other
status. The functional handler's table is an empty placeholder, so for
a falsy body it always emits `` `${status} ${statusText}` ``. -/
theorem c4_status_table_amended :
    (∀ (e : AxiosErr) (resp : AxiosResp),
      e.response = some resp → resp.data.truthy = false →
      httpErrorHandler e
        = (Outcome.val JVal.undefined,
           [Notif.error (statusMessage resp.status resp.statusText)])) ∧
    (∀ t : String,
      statusMessage 400 t = "请求错误(400)" ∧
      statusMessage 401 t = "未授权，请重新登录(401)" ∧
      statusMessage 403 t = "拒绝访问(403)" ∧
      statusMessage 404 t = "请求的资源不存在(404)" ∧
      statusMessage 405 t = "请求方法不允许(405)" ∧
      statusMessage 408 t = "请求超时(408)" ∧
      statusMessage 500 t = "服务器内部错误(500)" ∧
      statusMessage 501 t = "服务未实现(501)" ∧
      statusMessage 502 t = "网关错误(502)" ∧
      statusMessage 503 t = "服务不可用(503)" ∧
      statusMessage 504 t = "网关超时(504)" ∧
      statusMessage 505 t = "HTTP 版本不受支持(505)") ∧
    (∀ (status : Nat) (t : String),
      status ∉ ([400, 401, 403, 404, 405, 408, 500, 501, 502, 503,
                 504, 505] : List Nat) →
      statusMessage status t = s!"{t}({status})") ∧
    (∀ (e : AxiosErr) (resp : AxiosResp) (store : Option String),
      e.isAxiosError = true → e.response = some resp →
      resp.data.truthy = false →
      requestErrorHandler e store
        = (Outcome.val JVal.undefined,
           [Notif.error s!"{resp.status} {resp.statusText}"], store)) := by
  refine ⟨?_, ?_, ?_, ?_⟩
  · intro e resp hr hb
    simp [httpErrorHandler, httpErrorMessage, hr, hb]
  · intro t
    exact ⟨rfl, rfl, rfl, rfl, rfl, rfl, rfl, rfl, rfl, rfl, rfl, rfl⟩
  · intro status t hmem
    unfold statusMessage
    split <;> simp_all
  · intro e resp store hax hr hb
    simp [requestErrorHandler, hax, hr, hb, orFallback, httpCodeMessgeMap,
          optStrTruthy]

/-- C4, witness: the amended theorem at a 408 with empty body (class
handler), at an unmapped 418 (fallback string), and at the same 418 for
the functional handler. -/
theorem c4_witness :
    httpErrorHandler errTimeout408
      = (Outcome.val JVal.undefined, [Notif.error "请求超时(408)"]) ∧
    statusMessage 418 "Teapot" = "Teapot(418)" ∧
    requestErrorHandler errTeapot (some "tok")
      = (Outcome.val JVal.undefined, [Notif.error "418 Teapot"], some "tok") := by
  refine ⟨?_, ?_, ?_⟩
  · have h := c4_status_table_amended.1 errTimeout408 respTimeout408 rfl
      (by decide)
    exact h.trans (by decide)
  · exact c4_status_table_amended.2.2.1 418 "Teapot" (by decide)
  · have h := c4_status_table_amended.2.2.2 errTeapot _ (some "tok") rfl rfl
      (by decide)
    exact h.trans (by decide)

/-- C5, counterexample: an axios timeout error with no HTTP response
(`errTimeout30s`) is resolved to `undefined` by the functional rejected
handler with no notification at all, so "emits an error notification
built from the transport error's message and code" fails as stated. -/
theorem c5_counterexample :
    requestErrorHandler errTimeout30s (some "tok")
      = (Outcome.val JVal.undefined, [], some "tok") := by
  decide

/-- C5, amended: the class-based handler behaves as claimed — a
no-response transport error with a truthy `message` or `code` resolves
`undefined` and emits exactly one notification
`` `${error.message}(${error.code})` ``, never an HTTP-status lookup —
while the functional handler resolves such errors silently. -/
theorem c5_no_response_amended :
    (∀ (e : AxiosErr) (w : Bool), e.response = none →
      (e.message ≠ "" ∨ optStrTruthy e.code = true) →
      httpRequestCall (TransportEvent.fail e) w
        = some (Outcome.val JVal.undefined,
                [Notif.error s!"{e.message}({jsShowStr e.code})"])) ∧
    (∀ (e : AxiosErr) (store : Option String), e.response = none →
      requestErrorHandler e store = (Outcome.val JVal.undefined, [], store)) := by
  constructor
  · intro e w hr htr
    have hcond : (e.message != "" || optStrTruthy e.code) = true := by
      rcases htr with h | h
      · simp [h]
      · simp [h]
    simp [httpRequestCall, httpErrorHandler, httpErrorMessage, hr, hcond]
  · intro e store hr
    simp [requestErrorHandler, hr]

/-- C5, witness: the amended theorem at the concrete `errNetwork`
failure, for both handlers. -/
theorem c5_witness :
    httpRequestCall (TransportEvent.fail errNetwork) false
      = some (Outcome.val JVal.undefined,
              [Notif.error "Network Error(ERR_NETWORK)"]) ∧
    requestErrorHandler errNetwork none
      = (Outcome.val JVal.undefined, [], none) := by
  constructor
  · have h := c5_no_response_amended.1 errNetwork false rfl
      (Or.inl (by decide))
    exact h.trans (by decide)
  · exact c5_no_response_amended.2 errNetwork none rfl

/-- C6, counterexample: the functional fulfilled handler keys its
notifications on `code`, not `success` — a `success: true` envelope
with `code: 500` and no message (`respTrueCode500`) emits an error
notification (with the text `undefined`, from the empty
`serverCodeMessageMap`), so "emits no notification when `message` is
absent" fails as stated. -/
theorem c6_counterexample :
    requestSuccessHandler respTrueCode500 none
      = some (Outcome.val (JVal.jnum 1), [Notif.error "undefined"]) ∧
    [Notif.error "undefined"] ≠ ([] : List Notif) := by
  decide

/-- C6, amended: in the class-based handler, a JSON envelope with
`success: true` resolves to its `data` field and emits exactly one
informational notification carrying `message` when `message` is present
and nonempty, and no notification when it is absent or empty; the
functional handler instead keys notifications on `code ∈ [200, 300)`. -/
theorem c6_success_true_amended (resp : AxiosResp) (en : Envelope)
    (hct : includesJson resp.contentType = true)
    (hb : resp.data = Body.env en) (hs : en.success = some true) :
    ∃ notifs,
      httpSuccessHandler resp false = some (Outcome.val en.data, notifs) ∧
      (∀ m, en.message = some m → m ≠ "" → notifs = [Notif.info m]) ∧
      ((en.message = none ∨ en.message = some "") → notifs = []) := by
  refine ⟨mainNotifs en.success en.code en.message, ?_, ?_, ?_⟩
  · simp [httpSuccessHandler, hct, hb, Body.destructure, Body.dataField]
  · intro m hm hne
    simp [mainNotifs, hs, hm, optStrTruthy, hne, jsShowStr]
  · rintro (hm | hm) <;> simp [mainNotifs, hs, hm, optStrTruthy, jsShowStr]

/-- C6, witness: the amended theorem at the concrete `respLogin`
exchange (message present) — one `msg.info` notification. -/
theorem c6_witness :
    httpSuccessHandler respLogin false
      = some (Outcome.val (JVal.jnum 3), [Notif.info "登录成功"]) := by
  obtain ⟨ns, hmain, hsome, hnone⟩ := c6_success_true_amended respLogin envLogin
    (by decide) rfl rfl
  rw [hsome "登录成功" rfl (by decide)] at hmain
  exact hmain

/-- C7, counterexample: the functional fulfilled handler never consults
the content type — a CSV response whose request config did not say
`responseType: "blob"` (`respCsv`) still goes through envelope parsing,
emits a notification, and resolves to the unwrapped `data`, not the raw
body, so "for every non-JSON response the call resolves to the raw body
and envelope parsing is bypassed" fails as stated. -/
theorem c7_counterexample :
    requestSuccessHandler respCsv none
      = some (Outcome.val (JVal.jnum 2), [Notif.error "undefined"]) ∧
    Outcome.val (JVal.jnum 2) ≠ Outcome.rawBody respCsv.data ∧
    [Notif.error "undefined"] ≠ ([] : List Notif) := by
  decide

/-- C7, amended: the class-based handler behaves as claimed — any
response whose content type does not include `application/json`
resolves to the raw body unchanged (or the full response under
`withAxiosResponse`) with no notifications — while the functional
handler bypasses envelope parsing exactly when the request's
`responseType` is `"blob"`, regardless of the response content type. -/
theorem c7_non_json_amended :
    (∀ (resp : AxiosResp) (w : Bool), includesJson resp.contentType = false →
      httpSuccessHandler resp w
        = some (if w then Outcome.fullResp resp else Outcome.rawBody resp.data,
                [])) ∧
    (∀ resp : AxiosResp, requestSuccessHandler resp (some "blob")
        = some (Outcome.rawBody resp.data, [])) := by
  constructor
  · intro resp w h
    cases w <;> simp [httpSuccessHandler, h]
  · intro resp
    simp [requestSuccessHandler]

/-- C7, witness: the amended theorem at the concrete binary `respBlob`
exchange, for both handlers. -/
theorem c7_witness :
    httpSuccessHandler respBlob false
      = some (Outcome.rawBody (Body.val (JVal.blob 5)), []) ∧
    requestSuccessHandler respBlob (some "blob")
      = some (Outcome.rawBody (Body.val (JVal.blob 5)), []) := by
  constructor
  · have h := c7_non_json_amended.1 respBlob false (by decide)
    exact h.trans (by decide)
  · have h := c7_non_json_amended.2 respBlob
    exact h.trans (by decide)

/-- C8: for every transport error whose response body is an envelope
claiming `success: true`, the class-based handler emits the fixed
generic BUG ("unexpected state") message — not a message built from the
body's `message`/`code` and not an HTTP-status lookup — and the call
resolves `undefined`. -/
theorem c8_contradictory_envelope_bug (e : AxiosErr) (resp : AxiosResp)
    (en : Envelope)
    (hr : e.response = some resp) (hb : resp.data = Body.env en)
    (hs : en.success = some true) :
    httpErrorHandler e = (Outcome.val JVal.undefined, [Notif.error bugMessage]) := by
  simp [httpErrorHandler, httpErrorMessage, hr, hb, Body.truthy,
        envelopeErrMessage, hs]

/-- C8, witness: the theorem at the concrete `errContradict` exchange
(a 500 whose body claims `success: true`). -/
theorem c8_witness :
    httpErrorHandler errContradict
      = (Outcome.val JVal.undefined, [Notif.error bugMessage]) := by
  exact c8_contradictory_envelope_bug errContradict respContradict
    { data := JVal.jsNull, code := some 200, success := some true,
      message := some "ok" } rfl rfl rfl

/-- C9: round-trip of the escape hatch — for every structured (JSON
envelope) response, the call with `withAxiosResponse` returns the full
response object, whose nested `data.data` field equals the value the
same call returns without the flag, and the notifications are identical
in both modes. -/
theorem c9_with_axios_response_roundtrip (resp : AxiosResp) (en : Envelope)
    (hct : includesJson resp.contentType = true)
    (hb : resp.data = Body.env en) :
    ∃ notifs,
      httpSuccessHandler resp true = some (Outcome.fullResp resp, notifs) ∧
      httpSuccessHandler resp false = some (Outcome.val en.data, notifs) ∧
      resp.data.dataField = en.data := by
  refine ⟨mainNotifs en.success en.code en.message, ?_, ?_, ?_⟩ <;>
    simp [httpSuccessHandler, hct, hb, Body.destructure, Body.dataField]

/-- C9, witness: the theorem at the concrete `respQuiet` exchange: the
flagged call returns the full response, the unflagged call returns the
nested `data` value, with no notifications either way. -/
theorem c9_witness :
    httpSuccessHandler respQuiet true = some (Outcome.fullResp respQuiet, []) ∧
    httpSuccessHandler respQuiet false
      = some (Outcome.val (JVal.jstr "user-1"), []) := by
  obtain ⟨ns, h1, h2, h3⟩ := c9_with_axios_response_roundtrip respQuiet envQuiet
    (by decide) rfl
  have hns : ns = [] := by
    have h4 : some (Outcome.fullResp respQuiet, ns)
        = some (Outcome.fullResp respQuiet, ([] : List Notif)) :=
      h1.symm.trans (by decide)
    simpa using h4
  rw [hns] at h1 h2
  exact ⟨h1, h2⟩

/-- C10 (implicit): in the class-based error handler a truthy body
always takes the envelope branch — the HTTP-status table is consulted
only for absent/falsy bodies — and every truthy body that is not an
envelope with `success === false` (an HTML page string, an object
without a `success` field, ...) yields the fixed generic BUG message. -/
theorem c10_truthy_body_bug_branch :
    (∀ (e : AxiosErr) (resp : AxiosResp), e.response = some resp →
      resp.data.truthy = true →
      httpErrorMessage e = envelopeErrMessage resp.data) ∧
    (∀ (e : AxiosErr) (resp : AxiosResp), e.response = some resp →
      resp.data.truthy = true → envSuccess resp.data ≠ some false →
      httpErrorHandler e
        = (Outcome.val JVal.undefined, [Notif.error bugMessage])) := by
  constructor
  · intro e resp hr hb
    simp [httpErrorMessage, hr, hb]
  · intro e resp hr hb hs
    have hmsg : envelopeErrMessage resp.data = bugMessage := by
      cases hd : resp.data with
      | env en =>
        rw [hd] at hs
        simp only [envSuccess] at hs
        simp [envelopeErrMessage, hs]
      | val v => simp [envelopeErrMessage]
    simp [httpErrorHandler, httpErrorMessage, hr, hb, hmsg]

/-- C10, witness: the theorem at the concrete `errHtml502` exchange (a
502 whose truthy body is an HTML page, not an envelope). -/
theorem c10_witness :
    httpErrorMessage errHtml502 = envelopeErrMessage respHtml502.data ∧
    httpErrorHandler errHtml502
      = (Outcome.val JVal.undefined, [Notif.error bugMessage]) := by
  constructor
  · exact c10_truthy_body_bug_branch.1 errHtml502 respHtml502 rfl (by decide)
  · exact c10_truthy_body_bug_branch.2 errHtml502 respHtml502 rfl (by decide)
      (by decide)
